import Mathlib

/-!
Verification development for a small marketing-analytics pipeline:
a synthetic data generator (extract_data.py), a warehouse loader
(load_bigquery.py) and a dashboard (dashboard.py).  The Python source is
shallowly embedded: pure fragments become Lean functions over ℚ / ℕ /
String, the numpy random stream becomes an explicit position-indexed
oracle whose distribution supports are recorded as bundled facts, and
pandas float division (which never raises, producing inf / NaN on a zero
denominator) becomes an explicit four-point codomain.
-/

/-! ## Calendar dates

The generator receives a start and end date and iterates over the
inclusive daily range (pd.date_range), using Python's
date.weekday() (Monday = 0) for the weekend test and
strftime %Y-%m-%d for the emitted date string.  Dates are embedded as
civil (year, month, day) triples converted to a day count with the
standard days-from-civil algorithm; day 0 is 1970-01-01, a Thursday.
-/

structure Date where
  year : Int
  month : Int
  day : Int
deriving DecidableEq

/-- Day count of a civil date (days since 1970-01-01). -/
def daysFromCivil (dt : Date) : Int :=
  let y := dt.year - (if dt.month ≤ 2 then 1 else 0)
  let era := Int.fdiv y 400
  let yoe := y - era * 400
  let mp := Int.fmod (dt.month + 9) 12
  let doy := Int.fdiv (153 * mp + 2) 5 + dt.day - 1
  let doe := yoe * 365 + Int.fdiv yoe 4 - Int.fdiv yoe 100 + doy
  era * 146097 + doe - 719468

/-- Civil date (year, month, day) of a day count; inverse of daysFromCivil. -/
def civilFromDays (z : Int) : Int × Int × Int :=
  let z2 := z + 719468
  let era := Int.fdiv z2 146097
  let doe := z2 - era * 146097
  let yoe := Int.fdiv (doe - Int.fdiv doe 1460 + Int.fdiv doe 36524 - Int.fdiv doe 146096) 365
  let y := yoe + era * 400
  let doy := doe - (365 * yoe + Int.fdiv yoe 4 - Int.fdiv yoe 100)
  let mp := Int.fdiv (5 * doy + 2) 153
  let d := doy - Int.fdiv (153 * mp + 2) 5 + 1
  let m := mp + (if mp < 10 then 3 else -9)
  (y + (if m ≤ 2 then 1 else 0), m, d)

/-- Python date.weekday(): Monday = 0 … Sunday = 6.  Day 0 (1970-01-01)
is a Thursday, index 3. -/
def weekdayZ (z : Int) : Int :=
  Int.fmod (z + 3) 7

/-- Left-pad the decimal representation of a nonnegative value to two digits
(strftime %m / %d). -/
def pad2 (n : Int) : String :=
  if n < 10 then "0" ++ toString n else toString n

/-- Left-pad a year to four digits (strftime %Y). -/
def pad4 (n : Int) : String :=
  if n < 10 then "000" ++ toString n
  else if n < 100 then "00" ++ toString n
  else if n < 1000 then "0" ++ toString n
  else toString n

/-- strftime %Y-%m-%d on a day count. -/
def formatDate (z : Int) : String :=
  let c := civilFromDays z
  pad4 c.1 ++ "-" ++ pad2 c.2.1 ++ "-" ++ pad2 c.2.2

/-- pd.date_range(start, end, freq = daily): every day count from a to b
inclusive, empty when b < a. -/
def dateRangeZ (a b : Int) : List Int :=
  (List.range (b - a + 1).toNat).map (fun i : ℕ => a + (i : Int))

/-! ## Channel profiles

extract_data.py lines 41-65: a per-source if/elif chain of static
parameters; any source not among the four paid names takes the
else-branch (the Direct profile). -/

structure ChannelProfile where
  avg_sessions : ℚ
  avg_conv_rate : ℚ
  avg_spend : ℚ
  avg_revenue_per_conv : ℚ
deriving DecidableEq

/-- The per-source parameter chain of generate_marketing_data. -/
def profileFor (source : String) : ChannelProfile :=
  if source = "Google Ads" then ⟨1500, 5/100, 3000, 150⟩
  else if source = "Facebook Ads" then ⟨1200, 4/100, 2500, 120⟩
  else if source = "LinkedIn" then ⟨400, 6/100, 1500, 200⟩
  else if source = "Email" then ⟨800, 8/100, 500, 100⟩
  else ⟨2000, 3/100, 0, 80⟩

/-! ## The random stream

np.random.seed(42) fixes the global numpy stream; each subsequent draw
consumes the stream in call order.  The stream is embedded as a
position-indexed oracle: field i of each primitive is the position of
the call in the stream, and the generator threads a position counter
exactly as the source threads the hidden numpy state.  The one fact a
distribution guarantees about every draw is bundled: a binomial sample
on n trials lies in [0, n] (poisson samples are nonnegative by their ℕ
type; normal samples are unconstrained). -/

structure Rng where
  poisson : ℕ → ℚ → ℕ
  binomial : ℕ → ℕ → ℚ → ℕ
  normal : ℕ → ℚ → ℚ → ℚ
  binomial_le : ∀ i n p, binomial i n p ≤ n

/-! ## Rounding

Python round(x, 2) rounds half to even at two decimal places. -/

/-- Round a rational to the nearest integer, ties to the even integer. -/
def roundHalfEven (q : ℚ) : Int :=
  let f := Rat.floor q
  let r := q - f
  if r < 1/2 then f
  else if 1/2 < r then f + 1
  else if f % 2 = 0 then f else f + 1

/-- Python round(x, 2). -/
def round2 (q : ℚ) : ℚ :=
  (roundHalfEven (q * 100) : ℚ) / 100

/-! ## The generator -/

structure MarketingRow where
  date : String
  source : String
  sessions : ℕ
  conversions : ℕ
  revenue : ℚ
  spend : ℚ
deriving DecidableEq

/-- Mean handed to the Poisson draw for sessions: the profile baseline
scaled by the weekday factor (0.7 on Saturday and Sunday, 1.0 otherwise;
extract_data.py line 68). -/
def sessionsMean (source : String) (z : Int) : ℚ :=
  (profileFor source).avg_sessions * (if weekdayZ z ≥ 5 then 7/10 else 1)

/-- The body of the inner loop of generate_marketing_data (lines 41-87)
for one (date, source) pair, at position k of the random stream; returns
the emitted row and the next stream position.  The spend draw happens
only when the profile's average spend is positive (line 73), so that
branch consumes one fewer stream position. -/
def genRecord (rng : Rng) (k : ℕ) (z : Int) (source : String) : MarketingRow × ℕ :=
  let prof := profileFor source
  let sessions := rng.poisson k (sessionsMean source z)
  let conversions := rng.binomial (k + 1) sessions prof.avg_conv_rate
  let sk : ℚ × ℕ :=
    if prof.avg_spend > 0 then
      (rng.normal (k + 2) prof.avg_spend (prof.avg_spend * (2/10)), k + 3)
    else ((0 : ℚ), k + 2)
  let revenue := (conversions : ℚ) *
    rng.normal sk.2 prof.avg_revenue_per_conv (prof.avg_revenue_per_conv * (3/10))
  let spend := max 0 sk.1
  let revenue2 := max 0 revenue
  ({ date := formatDate z, source := source, sessions := sessions,
     conversions := conversions, revenue := round2 revenue2, spend := round2 spend },
   sk.2 + 1)

/-- Inner loop over sources for a fixed date, threading the stream position. -/
def genForDate (rng : Rng) (z : Int) : List String → ℕ → List MarketingRow × ℕ
  | [], k => ([], k)
  | s :: rest, k =>
    let rk := genRecord rng k z s
    let rest2 := genForDate rng z rest rk.2
    (rk.1 :: rest2.1, rest2.2)

/-- Outer loop over the date range. -/
def genAll (rng : Rng) : List Int → List String → ℕ → List MarketingRow × ℕ
  | [], _, k => ([], k)
  | z :: zs, sources, k =>
    let day := genForDate rng z sources k
    let rest := genAll rng zs sources day.2
    (day.1 ++ rest.1, rest.2)

/-- generate_marketing_data: npRandom maps a seed to the stream it
determines; the source fixes the seed at 42 (line 34) and then walks the
inclusive date range, emitting one row per (date, source) pair. -/
def generate_marketing_data (npRandom : ℕ → Rng) (dStart dEnd : Date)
    (sources : List String) : List MarketingRow :=
  let dates := dateRangeZ (daysFromCivil dStart) (daysFromCivil dEnd)
  let rng := npRandom 42
  (genAll rng dates sources 0).1

/-- A concrete stream used to instantiate theorems: the poisson draw is
the floor of its mean, the binomial draw is its trial count, the normal
draw is its mean. -/
def floorRng : Rng where
  poisson := fun _ m => (⌊m⌋).toNat
  binomial := fun _ n _ => n
  normal := fun _ m _ => m
  binomial_le := fun _ n _ => le_refl n

example : weekdayZ (daysFromCivil ⟨2024, 9, 1⟩) = 6 := by decide
example : weekdayZ (daysFromCivil ⟨2024, 9, 2⟩) = 0 := by decide
example : formatDate (daysFromCivil ⟨2024, 9, 1⟩) = "2024-09-01" := by decide
example : roundHalfEven (5/2) = 2 := by with_unfolding_all decide
example : roundHalfEven (7/2) = 4 := by with_unfolding_all decide
example : roundHalfEven (-5/2) = -2 := by with_unfolding_all decide

/-! ## The dashboard

dashboard.py receives warehouse rows (columns date, marketing_source,
spend, sessions, conversions, revenue), aggregates them with pandas and
renders charts.  pandas float division never raises: a zero denominator
yields +inf, -inf or NaN depending on the numerator's sign, so the
column arithmetic is embedded with that four-point codomain. -/

structure DashRow where
  date : String
  marketing_source : String
  spend : ℚ
  sessions : ℚ
  conversions : ℚ
  revenue : ℚ
deriving DecidableEq

/-- A pandas float64 cell: finite, one of the two infinities, or NaN. -/
inductive PFloat where
  | val : ℚ → PFloat
  | inf : PFloat
  | neginf : PFloat
  | nan : PFloat
deriving DecidableEq

/-- pandas / numpy float division of finite operands: total, and a zero
denominator produces inf / -inf / NaN by the numerator's sign. -/
def pdiv (a b : ℚ) : PFloat :=
  if b ≠ 0 then PFloat.val (a / b)
  else if 0 < a then PFloat.inf
  else if a < 0 then PFloat.neginf
  else PFloat.nan

/-- Comparator used by sort_values on a float column: NaN sorts last. -/
def pfLeB : PFloat → PFloat → Bool
  | _, PFloat.nan => true
  | PFloat.nan, _ => false
  | PFloat.neginf, _ => true
  | _, PFloat.neginf => false
  | PFloat.val a, PFloat.val b => decide (a ≤ b)
  | PFloat.val _, PFloat.inf => true
  | PFloat.inf, PFloat.inf => true
  | PFloat.inf, PFloat.val _ => false

/-- Insert into a sorted list by a boolean comparator. -/
def insertLE {α : Type} (le : α → α → Bool) (a : α) : List α → List α
  | [] => [a]
  | b :: l => if le a b then a :: b :: l else b :: insertLE le a l

/-- pandas sort_values by a boolean comparator (stable insertion sort;
only the ordering matters to the statements below). -/
def sortValues {α : Type} (le : α → α → Bool) : List α → List α
  | [] => []
  | a :: l => insertLE le a (sortValues le l)

/-- Sum of a numeric column over the rows of one group. -/
def groupSum (df : List DashRow) (s : String) (f : DashRow → ℚ) : ℚ :=
  ((df.filter (fun r => r.marketing_source == s)).map f).foldr (· + ·) 0

/-- The group keys of df.groupby, sorted ascending as pandas does. -/
def groupKeys (df : List DashRow) : List String :=
  sortValues (fun a b => !(decide (b < a))) (df.map (fun r => r.marketing_source)).dedup

/-- One aggregated row of plot_roas_by_source (dashboard.py lines
278-284): per-source sums of spend and revenue and the roas column
revenue / spend, with no zero-spend guard. -/
structure RoasAgg where
  marketing_source : String
  spend : ℚ
  revenue : ℚ
  roas : PFloat
deriving DecidableEq

/-- The aggregation of plot_roas_by_source: group by marketing_source,
sum spend and revenue, add roas = revenue / spend, sort ascending by
roas. -/
def plot_roas_by_source (df : List DashRow) : List RoasAgg :=
  sortValues (fun a b => pfLeB a.roas b.roas)
    ((groupKeys df).map (fun s =>
      { marketing_source := s
        spend := groupSum df s (fun r => r.spend)
        revenue := groupSum df s (fun r => r.revenue)
        roas := pdiv (groupSum df s (fun r => r.revenue)) (groupSum df s (fun r => r.spend)) }))

/-- One aggregated row of plot_channel_performance (dashboard.py lines
225-233): per-source sums of all four metrics and the same unguarded
roas column. -/
structure PerfAgg where
  marketing_source : String
  spend : ℚ
  revenue : ℚ
  conversions : ℚ
  sessions : ℚ
  roas : PFloat
deriving DecidableEq

/-- The aggregation of plot_channel_performance: group by
marketing_source, sum the four metrics, add roas = revenue / spend,
sort ascending by revenue. -/
def plot_channel_performance (df : List DashRow) : List PerfAgg :=
  sortValues (fun a b => decide (a.revenue ≤ b.revenue))
    ((groupKeys df).map (fun s =>
      { marketing_source := s
        spend := groupSum df s (fun r => r.spend)
        revenue := groupSum df s (fun r => r.revenue)
        conversions := groupSum df s (fun r => r.conversions)
        sessions := groupSum df s (fun r => r.sessions)
        roas := pdiv (groupSum df s (fun r => r.revenue)) (groupSum df s (fun r => r.spend)) }))

/-- display_kpis (dashboard.py lines 127-139): the three derived ratios,
each guarded to 0 on a zero denominator. -/
def display_kpis (df : List DashRow) : ℚ × ℚ × ℚ :=
  let total_spend : ℚ := (df.map (fun r => r.spend)).foldr (· + ·) 0
  let total_revenue : ℚ := (df.map (fun r => r.revenue)).foldr (· + ·) 0
  let total_conversions : ℚ := (df.map (fun r => r.conversions)).foldr (· + ·) 0
  let total_sessions : ℚ := (df.map (fun r => r.sessions)).foldr (· + ·) 0
  let avg_roas := if total_spend > 0 then total_revenue / total_spend else 0
  let avg_roi := if total_spend > 0 then (total_revenue - total_spend) / total_spend * 100 else 0
  let conversion_rate := if total_sessions > 0 then total_conversions / total_sessions * 100 else 0
  (avg_roas, avg_roi, conversion_rate)

/-- Outcome of the query issued by load_marketing_data: either a row
list or a raised client exception (caught at dashboard.py line 122). -/
inductive QueryOutcome where
  | ok : List DashRow → QueryOutcome
  | raised : String → QueryOutcome
deriving DecidableEq

/-- load_marketing_data (dashboard.py lines 84-124): an absent client
yields an empty frame, a raised query exception is caught and yields an
empty frame, otherwise the query rows are returned. -/
def load_marketing_data (client : Option Unit) (q : QueryOutcome) : List DashRow :=
  match client with
  | none => []
  | some _ =>
    match q with
    | QueryOutcome.ok rows => rows
    | QueryOutcome.raised _ => []

/-- What main renders: a connection error, the informational no-data
state, or the dashboard over a nonempty frame. -/
inductive Rendered where
  | connectionError : Rendered
  | noData : Rendered
  | dashboard : List DashRow → Rendered
deriving DecidableEq

/-- main (dashboard.py lines 336-413): stop with an error when the
client is absent; otherwise load the frame and stop with the
informational no-data state when it is empty; otherwise render. -/
def dashboardMain (client : Option Unit) (q : QueryOutcome) : Rendered :=
  match client with
  | none => Rendered.connectionError
  | some c =>
    let df := load_marketing_data (some c) q
    if df.isEmpty then Rendered.noData
    else Rendered.dashboard df

/-! ## The loader -/

/-- BigQuery write dispositions a load job can carry. -/
inductive WriteDisposition where
  | WRITE_TRUNCATE : WriteDisposition
  | WRITE_APPEND : WriteDisposition
  | WRITE_EMPTY : WriteDisposition
deriving DecidableEq

/-- Modelled from the spec: the warehouse's write semantics, absent from
src/ (the repository only calls the BigQuery client).  A full-replace
(truncate-and-write) load discards all prior contents of the destination
before writing the new rows; an append keeps them; a write-empty load
writes only into an empty destination and otherwise leaves it unchanged. -/
def applyWriteDisposition {α : Type} (prior newRows : List α) :
    WriteDisposition → List α
  | WriteDisposition.WRITE_TRUNCATE => newRows
  | WriteDisposition.WRITE_APPEND => prior ++ newRows
  | WriteDisposition.WRITE_EMPTY => if prior.isEmpty then newRows else prior

/-- Warehouse state seen by the loader: the known dataset names and the
destination table's rows. -/
structure Warehouse (α : Type) where
  datasets : List String
  tableRows : List α

/-- load_to_bigquery (load_bigquery.py lines 14-93): create the dataset
when the existence check fails, then run a load job with
write_disposition WRITE_TRUNCATE, and report the destination's row
count after the write. -/
def load_to_bigquery {α : Type} (w : Warehouse α) (dataset_id : String)
    (df : List α) : Warehouse α × ℕ :=
  let w1 := if dataset_id ∈ w.datasets then w
            else { datasets := dataset_id :: w.datasets, tableRows := w.tableRows }
  let newTable := applyWriteDisposition w1.tableRows df WriteDisposition.WRITE_TRUNCATE
  ({ datasets := w1.datasets, tableRows := newTable }, newTable.length)

/-- Concrete dashboard frame used in counterexamples: a single Direct
row with zero spend and positive revenue. -/
def exDf : List DashRow :=
  [{ date := "2024-09-01", marketing_source := "Direct",
     spend := 0, sessions := 100, conversions := 3, revenue := 500 }]

/-! ## Helper lemmas about rounding -/

theorem ratFloor_eq_floor (q : ℚ) : Rat.floor q = ⌊q⌋ := by
  rw [Rat.floor_def]
  exact Rat.floor_def' q

theorem roundHalfEven_nonneg {q : ℚ} (h : 0 ≤ q) : 0 ≤ roundHalfEven q := by
  have hf : (0 : Int) ≤ Rat.floor q := by
    rw [ratFloor_eq_floor]
    exact Int.floor_nonneg.mpr h
  simp only [roundHalfEven]
  split_ifs <;> omega

theorem round2_nonneg {q : ℚ} (h : 0 ≤ q) : 0 ≤ round2 q := by
  have h1 : (0 : Int) ≤ roundHalfEven (q * 100) := roundHalfEven_nonneg (by positivity)
  have h2 : (0 : ℚ) ≤ (roundHalfEven (q * 100) : ℚ) := by exact_mod_cast h1
  simp only [round2]
  exact div_nonneg h2 (by norm_num)

theorem round2_zero : round2 0 = 0 := by with_unfolding_all decide

/-! ## Helper lemmas about genRecord -/

theorem genRecord_date (rng : Rng) (k : ℕ) (z : Int) (s : String) :
    (genRecord rng k z s).1.date = formatDate z := rfl

theorem genRecord_source (rng : Rng) (k : ℕ) (z : Int) (s : String) :
    (genRecord rng k z s).1.source = s := rfl

theorem genRecord_sessions (rng : Rng) (k : ℕ) (z : Int) (s : String) :
    (genRecord rng k z s).1.sessions = rng.poisson k (sessionsMean s z) := rfl

theorem genRecord_conversions (rng : Rng) (k : ℕ) (z : Int) (s : String) :
    (genRecord rng k z s).1.conversions
      = rng.binomial (k + 1) (rng.poisson k (sessionsMean s z)) (profileFor s).avg_conv_rate :=
  rfl

theorem genRecord_conversions_le (rng : Rng) (k : ℕ) (z : Int) (s : String) :
    (genRecord rng k z s).1.conversions ≤ (genRecord rng k z s).1.sessions := by
  rw [genRecord_conversions, genRecord_sessions]
  exact rng.binomial_le _ _ _

theorem genRecord_spend_nonneg (rng : Rng) (k : ℕ) (z : Int) (s : String) :
    0 ≤ (genRecord rng k z s).1.spend := by
  simp only [genRecord]
  exact round2_nonneg (le_max_left 0 _)

theorem genRecord_revenue_nonneg (rng : Rng) (k : ℕ) (z : Int) (s : String) :
    0 ≤ (genRecord rng k z s).1.revenue := by
  simp only [genRecord]
  exact round2_nonneg (le_max_left 0 _)

theorem genRecord_spend_of_not_pos (rng : Rng) (k : ℕ) (z : Int) (s : String)
    (h : ¬ (profileFor s).avg_spend > 0) : (genRecord rng k z s).1.spend = 0 := by
  simp only [genRecord, if_neg h]
  rw [max_self]
  exact round2_zero

theorem genRecord_revenue_of_conversions_zero (rng : Rng) (k : ℕ) (z : Int) (s : String)
    (h : (genRecord rng k z s).1.conversions = 0) : (genRecord rng k z s).1.revenue = 0 := by
  rw [genRecord_conversions] at h
  simp only [genRecord, h, Nat.cast_zero, zero_mul, max_self]
  exact round2_zero

theorem profileFor_unknown (s : String) (h1 : s ≠ "Google Ads") (h2 : s ≠ "Facebook Ads")
    (h3 : s ≠ "LinkedIn") (h4 : s ≠ "Email") :
    profileFor s = { avg_sessions := 2000, avg_conv_rate := 3/100,
                     avg_spend := 0, avg_revenue_per_conv := 80 } := by
  simp only [profileFor, if_neg h1, if_neg h2, if_neg h3, if_neg h4]

/-! ## Helper lemmas about the generator loops -/

theorem genForDate_length (rng : Rng) (z : Int) :
    ∀ (srcs : List String) (k : ℕ), ((genForDate rng z srcs k).1).length = srcs.length := by
  intro srcs
  induction srcs with
  | nil => intro k; rfl
  | cons s rest ih => intro k; simp [genForDate, ih]

theorem genAll_length (rng : Rng) :
    ∀ (zs : List Int) (srcs : List String) (k : ℕ),
      ((genAll rng zs srcs k).1).length = zs.length * srcs.length := by
  intro zs
  induction zs with
  | nil => intro srcs k; simp [genAll]
  | cons z rest ih =>
    intro srcs k
    simp only [genAll, List.length_append, genForDate_length, ih, List.length_cons]
    rw [Nat.add_mul, Nat.one_mul, Nat.add_comm]

theorem genForDate_keys (rng : Rng) (z : Int) :
    ∀ (srcs : List String) (k : ℕ),
      ((genForDate rng z srcs k).1).map (fun r => (r.date, r.source))
        = srcs.map (fun s => (formatDate z, s)) := by
  intro srcs
  induction srcs with
  | nil => intro k; rfl
  | cons s rest ih => intro k; simp [genForDate, ih, genRecord_date, genRecord_source]

theorem genAll_keys (rng : Rng) :
    ∀ (zs : List Int) (srcs : List String) (k : ℕ),
      ((genAll rng zs srcs k).1).map (fun r => (r.date, r.source))
        = zs.flatMap (fun z => srcs.map (fun s => (formatDate z, s))) := by
  intro zs
  induction zs with
  | nil => intro srcs k; rfl
  | cons z rest ih =>
    intro srcs k
    simp [genAll, List.map_append, genForDate_keys, ih]

theorem mem_genForDate {rng : Rng} {z : Int} :
    ∀ {srcs : List String} {k : ℕ} {row : MarketingRow},
      row ∈ (genForDate rng z srcs k).1 →
      ∃ s k0, s ∈ srcs ∧ row = (genRecord rng k0 z s).1 := by
  intro srcs
  induction srcs with
  | nil => intro k row h; simp [genForDate] at h
  | cons s rest ih =>
    intro k row h
    simp only [genForDate, List.mem_cons] at h
    rcases h with h | h
    · exact ⟨s, k, List.mem_cons_self s rest, h⟩
    · obtain ⟨t, k0, ht, he⟩ := ih h
      exact ⟨t, k0, List.mem_cons_of_mem s ht, he⟩

theorem mem_genAll {rng : Rng} :
    ∀ {zs : List Int} {srcs : List String} {k : ℕ} {row : MarketingRow},
      row ∈ (genAll rng zs srcs k).1 →
      ∃ z s k0, z ∈ zs ∧ s ∈ srcs ∧ row = (genRecord rng k0 z s).1 := by
  intro zs
  induction zs with
  | nil => intro srcs k row h; simp [genAll] at h
  | cons z rest ih =>
    intro srcs k row h
    simp only [genAll, List.mem_append] at h
    rcases h with h | h
    · obtain ⟨s, k0, hs, he⟩ := mem_genForDate h
      exact ⟨z, s, k0, List.mem_cons_self z rest, hs, he⟩
    · obtain ⟨z2, s, k0, hz, hs, he⟩ := ih h
      exact ⟨z2, s, k0, List.mem_cons_of_mem z hz, hs, he⟩

theorem mem_generate {R : ℕ → Rng} {a b : Date} {srcs : List String} {row : MarketingRow}
    (h : row ∈ generate_marketing_data R a b srcs) :
    ∃ z s k0, s ∈ srcs ∧ row = (genRecord (R 42) k0 z s).1 := by
  obtain ⟨z, s, k0, _, hs, he⟩ := mem_genAll h
  exact ⟨z, s, k0, hs, he⟩

/-! ## Helper lemmas about the dashboard aggregations -/

theorem mem_insertLE {α : Type} (le : α → α → Bool) (a : α) :
    ∀ (l : List α) (b : α), b ∈ insertLE le a l ↔ b = a ∨ b ∈ l := by
  intro l
  induction l with
  | nil => intro b; simp [insertLE]
  | cons c rest ih =>
    intro b
    simp only [insertLE]
    split
    · simp [List.mem_cons]
    · simp only [List.mem_cons, ih]
      tauto

theorem mem_sortValues {α : Type} (le : α → α → Bool) :
    ∀ (l : List α) (b : α), b ∈ sortValues le l ↔ b ∈ l := by
  intro l
  induction l with
  | nil => intro b; simp [sortValues]
  | cons c rest ih =>
    intro b
    simp only [sortValues, mem_insertLE, ih, List.mem_cons]

theorem mem_plot_roas_by_source {df : List DashRow} {a : RoasAgg}
    (h : a ∈ plot_roas_by_source df) :
    ∃ s, a.spend = groupSum df s (fun r => r.spend) ∧
         a.revenue = groupSum df s (fun r => r.revenue) ∧
         a.roas = pdiv a.revenue a.spend := by
  rw [plot_roas_by_source, mem_sortValues, List.mem_map] at h
  obtain ⟨s, _, he⟩ := h
  refine ⟨s, ?_, ?_, ?_⟩ <;> rw [← he]

theorem mem_plot_channel_performance {df : List DashRow} {a : PerfAgg}
    (h : a ∈ plot_channel_performance df) :
    ∃ s, a.spend = groupSum df s (fun r => r.spend) ∧
         a.revenue = groupSum df s (fun r => r.revenue) ∧
         a.roas = pdiv a.revenue a.spend := by
  rw [plot_channel_performance, mem_sortValues, List.mem_map] at h
  obtain ⟨s, _, he⟩ := h
  refine ⟨s, ?_, ?_, ?_⟩ <;> rw [← he]

theorem pdiv_zero_den (a : ℚ) :
    pdiv a 0 = (if 0 < a then PFloat.inf else if a < 0 then PFloat.neginf else PFloat.nan) := by
  simp [pdiv]

theorem generate_single (R : ℕ → Rng) (a : Date) (s : String) :
    generate_marketing_data R a a [s]
      = [(genRecord (R 42) 0 (daysFromCivil a) s).1] := by
  have h0 : (daysFromCivil a - daysFromCivil a + 1).toNat = 1 := by omega
  have h1 : dateRangeZ (daysFromCivil a) (daysFromCivil a) = [daysFromCivil a] := by
    rw [dateRangeZ, h0, show List.range 1 = [0] from rfl, List.map_singleton]
    simp
  simp [generate_marketing_data, h1, genAll, genForDate]

/-- A stream whose binomial draw is always 0, used to exhibit a record
with zero conversions. -/
def zeroRng : Rng where
  poisson := fun _ _ => 0
  binomial := fun _ _ _ => 0
  normal := fun _ m _ => m
  binomial_le := fun _ n _ => Nat.zero_le n

/-- C2: every record produced by the generator satisfies
0 ≤ conversions ≤ sessions, because the conversions draw is binomial
with n = the sessions just drawn. -/
theorem claim2_conversions_bounded (R : ℕ → Rng) (a b : Date) (srcs : List String)
    (row : MarketingRow) (h : row ∈ generate_marketing_data R a b srcs) :
    0 ≤ row.conversions ∧ row.conversions ≤ row.sessions := by
  obtain ⟨z, s, k0, _, he⟩ := mem_generate h
  subst he
  exact ⟨Nat.zero_le _, genRecord_conversions_le _ _ _ _⟩

theorem claim2_witness :
    (genRecord floorRng 0 (daysFromCivil ⟨2024, 9, 1⟩) "Email").1 ∈
        generate_marketing_data (fun _ => floorRng) ⟨2024, 9, 1⟩ ⟨2024, 9, 1⟩ ["Email"] ∧
    0 ≤ (genRecord floorRng 0 (daysFromCivil ⟨2024, 9, 1⟩) "Email").1.conversions ∧
    (genRecord floorRng 0 (daysFromCivil ⟨2024, 9, 1⟩) "Email").1.conversions
      ≤ (genRecord floorRng 0 (daysFromCivil ⟨2024, 9, 1⟩) "Email").1.sessions := by
  have hmem : (genRecord floorRng 0 (daysFromCivil ⟨2024, 9, 1⟩) "Email").1 ∈
      generate_marketing_data (fun _ => floorRng) ⟨2024, 9, 1⟩ ⟨2024, 9, 1⟩ ["Email"] := by
    rw [generate_single]
    exact List.mem_singleton_self _
  exact ⟨hmem,
    claim2_conversions_bounded (fun _ => floorRng) ⟨2024, 9, 1⟩ ⟨2024, 9, 1⟩ ["Email"] _ hmem⟩

/-- C3: for start ≤ end the generator emits exactly (days in the
inclusive range) × (number of channels) records, and the emitted
(date, source) pairs are, in order, the pairs of the range and the
channel list. -/
theorem claim3_record_count (R : ℕ → Rng) (a b : Date) (srcs : List String)
    (h : daysFromCivil a ≤ daysFromCivil b) :
    (generate_marketing_data R a b srcs).length
      = (daysFromCivil b - daysFromCivil a + 1).toNat * srcs.length ∧
    (generate_marketing_data R a b srcs).map (fun r => (r.date, r.source))
      = (dateRangeZ (daysFromCivil a) (daysFromCivil b)).flatMap
          (fun z => srcs.map (fun s => (formatDate z, s))) := by
  have hlen : (dateRangeZ (daysFromCivil a) (daysFromCivil b)).length
      = (daysFromCivil b - daysFromCivil a + 1).toNat := by
    rw [dateRangeZ, List.length_map, List.length_range]
  constructor
  · simp only [generate_marketing_data, genAll_length, hlen]
  · simp only [generate_marketing_data, genAll_keys]

theorem claim3_witness :
    daysFromCivil ⟨2024, 9, 1⟩ ≤ daysFromCivil ⟨2024, 9, 7⟩ ∧
    (generate_marketing_data (fun _ => floorRng) ⟨2024, 9, 1⟩ ⟨2024, 9, 7⟩
        ["Google Ads", "Facebook Ads", "LinkedIn", "Email", "Direct"]).length = 35 := by
  refine ⟨by decide, ?_⟩
  rw [(claim3_record_count (fun _ => floorRng) ⟨2024, 9, 1⟩ ⟨2024, 9, 7⟩
        ["Google Ads", "Facebook Ads", "LinkedIn", "Email", "Direct"] (by decide)).1]
  decide

/-- C4: every record produced by the generator has spend ≥ 0 and
revenue ≥ 0, since both are clamped with max 0 before rounding. -/
theorem claim4_nonneg (R : ℕ → Rng) (a b : Date) (srcs : List String)
    (row : MarketingRow) (h : row ∈ generate_marketing_data R a b srcs) :
    0 ≤ row.spend ∧ 0 ≤ row.revenue := by
  obtain ⟨z, s, k0, _, he⟩ := mem_generate h
  subst he
  exact ⟨genRecord_spend_nonneg _ _ _ _, genRecord_revenue_nonneg _ _ _ _⟩

theorem claim4_witness :
    (genRecord floorRng 0 (daysFromCivil ⟨2024, 9, 1⟩) "Email").1 ∈
        generate_marketing_data (fun _ => floorRng) ⟨2024, 9, 1⟩ ⟨2024, 9, 1⟩ ["Email"] ∧
    0 ≤ (genRecord floorRng 0 (daysFromCivil ⟨2024, 9, 1⟩) "Email").1.spend ∧
    0 ≤ (genRecord floorRng 0 (daysFromCivil ⟨2024, 9, 1⟩) "Email").1.revenue := by
  have hmem : (genRecord floorRng 0 (daysFromCivil ⟨2024, 9, 1⟩) "Email").1 ∈
      generate_marketing_data (fun _ => floorRng) ⟨2024, 9, 1⟩ ⟨2024, 9, 1⟩ ["Email"] := by
    rw [generate_single]
    exact List.mem_singleton_self _
  exact ⟨hmem,
    claim4_nonneg (fun _ => floorRng) ⟨2024, 9, 1⟩ ⟨2024, 9, 1⟩ ["Email"] _ hmem⟩

/-- C5: the generator is deterministic: with the pseudo-random stream
fixed by the constant seed, two runs on identical start date, end date
and channel list return identical outputs. -/
theorem claim5_deterministic (R : ℕ → Rng) (a1 b1 : Date) (c1 : List String)
    (a2 : Date) (b2 : Date) (c2 : List String)
    (ha : a1 = a2) (hb : b1 = b2) (hc : c1 = c2) :
    generate_marketing_data R a1 b1 c1 = generate_marketing_data R a2 b2 c2 := by
  rw [ha, hb, hc]

theorem claim5_witness :
    generate_marketing_data (fun _ => floorRng) ⟨2024, 9, 1⟩ ⟨2024, 9, 7⟩ ["Email", "Direct"]
      = generate_marketing_data (fun _ => floorRng) ⟨2024, 9, 1⟩ ⟨2024, 9, 7⟩
          ["Email", "Direct"] :=
  claim5_deterministic (fun _ => floorRng) _ _ _ _ _ _ rfl rfl rfl

/-- C6: the sessions draw is Poisson with mean equal to the channel
baseline times 0.7 when the Monday-start day-of-week index is ≥ 5
(Saturday, Sunday) and times 1.0 on every other day. -/
theorem claim6_seasonality (rng : Rng) (k : ℕ) (z : Int) (s : String) :
    (genRecord rng k z s).1.sessions = rng.poisson k (sessionsMean s z) ∧
    (weekdayZ z ≥ 5 → sessionsMean s z = (profileFor s).avg_sessions * (7/10)) ∧
    (weekdayZ z < 5 → sessionsMean s z = (profileFor s).avg_sessions) := by
  refine ⟨genRecord_sessions rng k z s, ?_, ?_⟩
  · intro h
    rw [sessionsMean, if_pos h]
  · intro h
    rw [sessionsMean, if_neg (by omega), mul_one]

theorem claim6_witness :
    (genRecord floorRng 0 19967 "Email").1.sessions
      = floorRng.poisson 0 (sessionsMean "Email" 19967) ∧
    sessionsMean "Email" 19967 = (profileFor "Email").avg_sessions * (7/10) ∧
    sessionsMean "Email" 19968 = (profileFor "Email").avg_sessions :=
  ⟨(claim6_seasonality floorRng 0 19967 "Email").1,
   (claim6_seasonality floorRng 0 19967 "Email").2.1 (by decide),
   (claim6_seasonality floorRng 0 19968 "Email").2.2 (by decide)⟩

/-- C7: a source outside the four paid names takes the Direct profile
rather than failing, the zero average spend of that profile
short-circuits the spend draw, and the emitted spend is exactly 0; in
particular every generated Direct row has spend 0. -/
theorem claim7_direct_fallback :
    (∀ (rng : Rng) (k : ℕ) (z : Int) (s : String),
        s ≠ "Google Ads" → s ≠ "Facebook Ads" → s ≠ "LinkedIn" → s ≠ "Email" →
        profileFor s = profileFor "Direct" ∧ (genRecord rng k z s).1.spend = 0) ∧
    (∀ (R : ℕ → Rng) (a b : Date) (srcs : List String) (row : MarketingRow),
        row ∈ generate_marketing_data R a b srcs → row.source = "Direct" →
        row.spend = 0) := by
  have hdir : profileFor "Direct"
      = { avg_sessions := 2000, avg_conv_rate := 3/100,
          avg_spend := 0, avg_revenue_per_conv := 80 } :=
    profileFor_unknown _ (by decide) (by decide) (by decide) (by decide)
  constructor
  · intro rng k z s h1 h2 h3 h4
    have hp : profileFor s = profileFor "Direct" := by
      rw [profileFor_unknown s h1 h2 h3 h4, hdir]
    refine ⟨hp, ?_⟩
    apply genRecord_spend_of_not_pos
    rw [hp, hdir]
    norm_num
  · intro R a b srcs row hmem hsrc
    obtain ⟨z, s, k0, _, he⟩ := mem_generate hmem
    subst he
    rw [genRecord_source] at hsrc
    subst hsrc
    apply genRecord_spend_of_not_pos
    rw [hdir]
    norm_num

theorem claim7_witness :
    profileFor "Organic" = profileFor "Direct" ∧
    (genRecord floorRng 0 19967 "Organic").1.spend = 0 ∧
    (genRecord floorRng 0 (daysFromCivil ⟨2024, 9, 1⟩) "Direct").1.spend = 0 := by
  obtain ⟨h1, h2⟩ := claim7_direct_fallback.1 floorRng 0 19967 "Organic"
      (by decide) (by decide) (by decide) (by decide)
  refine ⟨h1, h2, ?_⟩
  have hmem : (genRecord floorRng 0 (daysFromCivil ⟨2024, 9, 1⟩) "Direct").1 ∈
      generate_marketing_data (fun _ => floorRng) ⟨2024, 9, 1⟩ ⟨2024, 9, 1⟩ ["Direct"] := by
    rw [generate_single]
    exact List.mem_singleton_self _
  exact claim7_direct_fallback.2 (fun _ => floorRng) ⟨2024, 9, 1⟩ ⟨2024, 9, 1⟩ ["Direct"]
    (genRecord floorRng 0 (daysFromCivil ⟨2024, 9, 1⟩) "Direct").1 hmem
    (genRecord_source _ _ _ _)

/-- C10: a generated record with zero conversions has zero revenue,
because total revenue is the conversions count times the sampled
per-conversion value, then clamped and rounded. -/
theorem claim10_zero_conv_zero_revenue (R : ℕ → Rng) (a b : Date) (srcs : List String)
    (row : MarketingRow) (h : row ∈ generate_marketing_data R a b srcs)
    (hc : row.conversions = 0) : row.revenue = 0 := by
  obtain ⟨z, s, k0, _, he⟩ := mem_generate h
  subst he
  exact genRecord_revenue_of_conversions_zero _ _ _ _ hc

theorem claim10_witness :
    (genRecord zeroRng 0 (daysFromCivil ⟨2024, 9, 1⟩) "Email").1 ∈
        generate_marketing_data (fun _ => zeroRng) ⟨2024, 9, 1⟩ ⟨2024, 9, 1⟩ ["Email"] ∧
    (genRecord zeroRng 0 (daysFromCivil ⟨2024, 9, 1⟩) "Email").1.conversions = 0 ∧
    (genRecord zeroRng 0 (daysFromCivil ⟨2024, 9, 1⟩) "Email").1.revenue = 0 := by
  have hmem : (genRecord zeroRng 0 (daysFromCivil ⟨2024, 9, 1⟩) "Email").1 ∈
      generate_marketing_data (fun _ => zeroRng) ⟨2024, 9, 1⟩ ⟨2024, 9, 1⟩ ["Email"] := by
    rw [generate_single]
    exact List.mem_singleton_self _
  exact ⟨hmem, rfl,
    claim10_zero_conv_zero_revenue (fun _ => zeroRng) ⟨2024, 9, 1⟩ ⟨2024, 9, 1⟩ ["Email"] _
      hmem rfl⟩

set_option maxRecDepth 8000 in
/-- C1 (counterexample): a frame whose single channel has zero total
spend and positive total revenue; both per-channel breakdowns report its
ROAS as +inf, which is not the finite value 0. -/
theorem claim1_counterexample :
    plot_roas_by_source exDf
      = [{ marketing_source := "Direct", spend := 0, revenue := 500,
           roas := PFloat.inf }] ∧
    plot_channel_performance exDf
      = [{ marketing_source := "Direct", spend := 0, revenue := 500,
           conversions := 3, sessions := 100, roas := PFloat.inf }] ∧
    PFloat.inf ≠ PFloat.val 0 := by
  with_unfolding_all decide

/-- C1 (amended): in both per-channel breakdowns the division
revenue / spend is total — it never raises — but on a channel whose
total spend is 0 the reported ROAS is not 0: it is +inf when the
total revenue is positive, -inf when negative and NaN when zero. -/
theorem claim1_roas_zero_spend (df : List DashRow) :
    (∀ a ∈ plot_roas_by_source df, a.spend = 0 →
        a.roas = (if 0 < a.revenue then PFloat.inf
                  else if a.revenue < 0 then PFloat.neginf else PFloat.nan)) ∧
    (∀ a ∈ plot_channel_performance df, a.spend = 0 →
        a.roas = (if 0 < a.revenue then PFloat.inf
                  else if a.revenue < 0 then PFloat.neginf else PFloat.nan)) := by
  constructor
  · intro a ha h0
    obtain ⟨s, hs, hr, hroas⟩ := mem_plot_roas_by_source ha
    rw [hroas, h0, pdiv_zero_den]
  · intro a ha h0
    obtain ⟨s, hs, hr, hroas⟩ := mem_plot_channel_performance ha
    rw [hroas, h0, pdiv_zero_den]

set_option maxRecDepth 8000 in
theorem claim1_witness :
    ({ marketing_source := "Direct", spend := 0, revenue := 500,
       roas := PFloat.inf } : RoasAgg).roas
      = (if 0 < ({ marketing_source := "Direct", spend := 0, revenue := 500,
                   roas := PFloat.inf } : RoasAgg).revenue then PFloat.inf
         else if ({ marketing_source := "Direct", spend := 0, revenue := 500,
                    roas := PFloat.inf } : RoasAgg).revenue < 0 then PFloat.neginf
         else PFloat.nan) :=
  (claim1_roas_zero_spend exDf).1 _ (by with_unfolding_all decide) rfl

/-- C8: the loader's write is a full replace: for every prior table
state the destination afterwards holds exactly the input rows, the
reported row count is the input's length, and the dataset container
exists. -/
theorem claim8_full_replace {α : Type} (w : Warehouse α) (dataset_id : String)
    (df : List α) :
    (load_to_bigquery w dataset_id df).1.tableRows = df ∧
    (load_to_bigquery w dataset_id df).2 = df.length ∧
    dataset_id ∈ (load_to_bigquery w dataset_id df).1.datasets := by
  refine ⟨rfl, rfl, ?_⟩
  simp only [load_to_bigquery]
  split
  · next h => exact h
  · exact List.mem_cons_self _ _

/-- C9: a dashboard query that succeeds with an empty result set renders
the informational no-data state, which is distinct from the error state,
and (the embedding being a total function) no exception escapes. -/
theorem claim9_empty_no_data (c : Unit) :
    dashboardMain (some c) (QueryOutcome.ok []) = Rendered.noData ∧
    Rendered.noData ≠ Rendered.connectionError ∧
    (∀ df : List DashRow, Rendered.noData ≠ Rendered.dashboard df) := by
  refine ⟨rfl, by decide, ?_⟩
  intro df h
  cases h
